import Mathlib

/-!
Shallow embedding of the Ethernet driver of
`src/Tutorials/eth_tutorial.c` (STM32H7 bare-metal tutorial), covering:

* the DMA descriptor rings for TX and RX, their per-slot 1536-byte
  buffers, the software cursors `TxDescIdx` / `RxDescIdx`, and the DMA
  registers written by the driver;
* `ETH_InitDescriptors`, `ETH_SendFrame`, `ETH_ReceiveFrame`;
* `ETH_InitPHY` (the bounded MDIO polls, modelled against an oracle for
  the externally-evolving PHY registers);
* the pure helper `BuildEthernetFrame`.

Machine integers are modelled as `Nat`; the 32-bit register words only
ever hold values below `2^32` in the code paths embedded here, so no
wrap is applied except where the C source itself truncates (the
`uint16_t total_len` of `BuildEthernetFrame`).  Byte buffers are total
functions `Nat → Nat` (index to byte); a `memcpy` of `n` bytes becomes
a pointwise override on indices `< n`.  The descriptor indices are
`Fin 4`: the C code keeps `TxDescIdx` / `RxDescIdx` in `[0, 4)` by
advancing with `% ETH_TX_DESC_CNT`, which is exactly `Fin 4` addition.

Where the tutorial file leaves a `???` exercise hole, the value is
taken from the SOLUTION comment printed directly beneath the hole in
the same source file (`ETH_InitDescriptors`: RX `DESC3 :=
ETH_RDES3_OWN ||| ETH_RDES3_IOC ||| ETH_RDES3_BUF1V`; `ETH_InitPHY`:
the reset write `PHY_BCR_RESET`, which is invisible to the embedding
anyway since PHY writes go to the external chip).
-/

/-- Register bit constants, transcribed from the `#define`s of the C file. -/
def ETH_TDES2_B1L_MASK : Nat := 0x3FFF

def ETH_TDES3_OWN : Nat := 2 ^ 31

def ETH_TDES3_FD : Nat := 2 ^ 29

def ETH_TDES3_LD : Nat := 2 ^ 28

def ETH_TDES3_CIC_ALL : Nat := 3 * 2 ^ 16

def ETH_RDES3_OWN : Nat := 2 ^ 31

def ETH_RDES3_IOC : Nat := 2 ^ 30

def ETH_RDES3_BUF1V : Nat := 2 ^ 24

def ETH_RDES3_PL_MASK : Nat := 0x7FFF

def ETH_RDES3_ES : Nat := 2 ^ 15

def ETH_RX_BUF_SIZE : Nat := 1536

def ETH_TX_BUF_SIZE : Nat := 1536

def ETH_RX_DESC_CNT : Nat := 4

def ETH_TX_DESC_CNT : Nat := 4

def ETH_DMACRCR_RBSZ_SHIFT : Nat := 1

def PHY_BCR_RESET : Nat := 2 ^ 15

def PHY_BCR_AUTONEG : Nat := 2 ^ 12

def PHY_BSR_LINK_UP : Nat := 2 ^ 2

/-- One DMA descriptor: the four 32-bit words `DESC0 .. DESC3` of
`ETH_DMADescTypeDef`.  The trailing `BackupAddr0/1`/`Reserved` words of
the C struct are never touched by the embedded functions and are
omitted. -/
structure ETH_DMADescTypeDef where
  DESC0 : Nat
  DESC1 : Nat
  DESC2 : Nat
  DESC3 : Nat
deriving DecidableEq

/-- Link-time memory layout: the base addresses of the four statically
allocated arrays.  A descriptor occupies 32 bytes (eight `uint32_t`), a
buffer slot `ETH_TX_BUF_SIZE = ETH_RX_BUF_SIZE = 1536` bytes, so
`&TxDescriptors[i]`, `&RxDescriptors[i]`, `TxBuffer[i]`, `RxBuffer[i]`
are affine in `i`. -/
structure MemLayout where
  TxDescriptorsBase : Nat
  RxDescriptorsBase : Nat
  TxBufferBase : Nat
  RxBufferBase : Nat

def MemLayout.txDescAddr (L : MemLayout) (i : Nat) : Nat :=
  L.TxDescriptorsBase + 32 * i

def MemLayout.rxDescAddr (L : MemLayout) (i : Nat) : Nat :=
  L.RxDescriptorsBase + 32 * i

def MemLayout.txBufAddr (L : MemLayout) (i : Nat) : Nat :=
  L.TxBufferBase + ETH_TX_BUF_SIZE * i

def MemLayout.rxBufAddr (L : MemLayout) (i : Nat) : Nat :=
  L.RxBufferBase + ETH_RX_BUF_SIZE * i

/-- The mutable state the embedded driver functions touch: the two
descriptor rings, the per-slot byte buffers, the two software cursors,
and the DMA channel registers written by `ETH_InitDescriptors`,
`ETH_SendFrame` and `ETH_ReceiveFrame`. -/
structure EthState where
  TxDescriptors : Fin 4 → ETH_DMADescTypeDef
  RxDescriptors : Fin 4 → ETH_DMADescTypeDef
  TxBuffer : Fin 4 → Nat → Nat
  RxBuffer : Fin 4 → Nat → Nat
  TxDescIdx : Fin 4
  RxDescIdx : Fin 4
  DMACTDLAR : Nat
  DMACRDLAR : Nat
  DMACTDRLR : Nat
  DMACRDRLR : Nat
  DMACRCR : Nat
  DMACTDTPR : Nat
  DMACRDTPR : Nat

/-- Embedding of `ETH_InitDescriptors` (eth_tutorial.c, lines 776-815):
zero all four TX descriptor words, bind each RX descriptor to its
buffer and arm it with `OWN | IOC | BUF1V` (the file's SOLUTION value
for the exercise hole), program the list/ring-length/buffer-size
registers, set the tail pointers, and reset both cursors. -/
def ETH_InitDescriptors (L : MemLayout) (s : EthState) : EthState :=
  { s with
    TxDescriptors := fun _ => ⟨0, 0, 0, 0⟩
    RxDescriptors := fun i =>
      ⟨L.rxBufAddr i.val, 0, 0, ETH_RDES3_OWN ||| ETH_RDES3_IOC ||| ETH_RDES3_BUF1V⟩
    DMACTDLAR := L.TxDescriptorsBase
    DMACRDLAR := L.RxDescriptorsBase
    DMACTDRLR := ETH_TX_DESC_CNT - 1
    DMACRDRLR := ETH_RX_DESC_CNT - 1
    DMACRCR := ETH_RX_BUF_SIZE <<< ETH_DMACRCR_RBSZ_SHIFT
    DMACTDTPR := L.txDescAddr 0
    DMACRDTPR := L.rxDescAddr (ETH_RX_DESC_CNT - 1)
    TxDescIdx := 0
    RxDescIdx := 0 }

/-- Embedding of `ETH_SendFrame` (eth_tutorial.c, lines 893-923).
`data` is the caller's byte buffer, `length` the `uint16_t` byte count.
Busy path: if the OWN bit of the cursor's descriptor is set, return 0
with the state untouched.  Otherwise: `memcpy` into the slot buffer,
write the four descriptor words, advance the cursor mod 4 (`Fin 4`
addition), write the new cursor's descriptor address to `DMACTDTPR`,
return 1. -/
def ETH_SendFrame (L : MemLayout) (s : EthState) (data : Nat → Nat) (length : Nat) :
    Nat × EthState :=
  let desc := s.TxDescriptors s.TxDescIdx
  if desc.DESC3 &&& ETH_TDES3_OWN ≠ 0 then
    (0, s)
  else
    let newIdx : Fin 4 := s.TxDescIdx + 1
    (1, { s with
      TxBuffer := Function.update s.TxBuffer s.TxDescIdx
        (fun i => if i < length then data i else s.TxBuffer s.TxDescIdx i)
      TxDescriptors := Function.update s.TxDescriptors s.TxDescIdx
        { DESC0 := L.txBufAddr s.TxDescIdx.val
          DESC1 := 0
          DESC2 := length &&& ETH_TDES2_B1L_MASK
          DESC3 := ETH_TDES3_OWN ||| ETH_TDES3_FD ||| ETH_TDES3_LD |||
                   ETH_TDES3_CIC_ALL ||| length }
      TxDescIdx := newIdx
      DMACTDTPR := L.txDescAddr newIdx.val })

/-- Embedding of `ETH_ReceiveFrame` (eth_tutorial.c, lines 926-962).
Returns the byte count, the caller's buffer after the copy, and the new
state.  DMA-owned: return 0 untouched.  Error summary set: re-arm the
descriptor (DESC0/DESC3 only), advance the cursor, return 0 — note that
this branch does not write `DMACRDTPR`.  Otherwise: clamp the packet
length to `max_length`, copy out, re-arm, advance, write `DMACRDTPR`. -/
def ETH_ReceiveFrame (L : MemLayout) (s : EthState) (buffer : Nat → Nat)
    (max_length : Nat) : Nat × (Nat → Nat) × EthState :=
  let desc := s.RxDescriptors s.RxDescIdx
  if desc.DESC3 &&& ETH_RDES3_OWN ≠ 0 then
    (0, buffer, s)
  else if desc.DESC3 &&& ETH_RDES3_ES ≠ 0 then
    (0, buffer,
      { s with
        RxDescriptors := Function.update s.RxDescriptors s.RxDescIdx
          { desc with
            DESC0 := L.rxBufAddr s.RxDescIdx.val
            DESC3 := ETH_RDES3_OWN ||| ETH_RDES3_IOC ||| ETH_RDES3_BUF1V }
        RxDescIdx := s.RxDescIdx + 1 })
  else
    let length0 := desc.DESC3 &&& ETH_RDES3_PL_MASK
    let length := if length0 > max_length then max_length else length0
    let newIdx : Fin 4 := s.RxDescIdx + 1
    (length,
      fun i => if i < length then s.RxBuffer s.RxDescIdx i else buffer i,
      { s with
        RxDescriptors := Function.update s.RxDescriptors s.RxDescIdx
          { desc with
            DESC0 := L.rxBufAddr s.RxDescIdx.val
            DESC3 := ETH_RDES3_OWN ||| ETH_RDES3_IOC ||| ETH_RDES3_BUF1V }
        RxDescIdx := newIdx
        DMACRDTPR := L.rxDescAddr newIdx.val })

/-- Oracle for the PHY chip as seen through `ETH_ReadPHY`: the reset
poll of `ETH_InitPHY` only ever reads `PHY_BCR`, the link poll only
`PHY_BSR`, so the oracle gives the (raw, pre-mask) register value at
the n-th read of each poll, plus the two identification reads. -/
structure PhyEnv where
  bcr : Nat → Nat
  id1 : Nat
  id2 : Nat
  bsr : Nat → Nat

/-- Bounded poll mirroring `while (read & mask) { if (--timeout == 0) return 0; }`:
reads at positions `n, n+1, ...`; succeeds (`true`) at the first read
with the masked bits clear; `fuel` is the initial `timeout`, i.e. the
maximal number of reads before giving up. -/
def phyPollClear (f : Nat → Nat) (mask : Nat) : Nat → Nat → Bool
  | _, 0 => false
  | n, fuel + 1 =>
    if (f n &&& 0xFFFF) &&& mask = 0 then true else phyPollClear f mask (n + 1) fuel

/-- Bounded poll mirroring `while (!(read & mask)) { if (--timeout == 0) return 0; }`. -/
def phyPollSet (f : Nat → Nat) (mask : Nat) : Nat → Nat → Bool
  | _, 0 => false
  | n, fuel + 1 =>
    if (f n &&& 0xFFFF) &&& mask ≠ 0 then true else phyPollSet f mask (n + 1) fuel

/-- Embedding of `ETH_InitPHY` (eth_tutorial.c, lines 731-761): reset
poll on `PHY_BCR` with timeout 100000; read both identification
registers but compare only `id1` against `0x0007`; write
auto-negotiation enable (external effect, absorbed by the oracle); link
poll on `PHY_BSR` with timeout 1000000.  Each `ETH_ReadPHY` result is
masked to 16 bits as in the C (`MACMDIODR & 0xFFFF`). -/
def ETH_InitPHY (env : PhyEnv) : Nat :=
  if ¬ phyPollClear env.bcr PHY_BCR_RESET 0 100000 then 0
  else
    let id1 := env.id1 &&& 0xFFFF
    let id2 := env.id2 &&& 0xFFFF
    if id1 ≠ 0x0007 then 0
    else if ¬ phyPollSet env.bsr PHY_BSR_LINK_UP 0 1000000 then 0
    else 1

/-- The value the C line
`hdr->ethertype = ((ethertype >> 8) & 0xFF) | ((ethertype & 0xFF) << 8);`
stores in the 16-bit `ethertype` field. -/
def hdrEthertypeStored (ethertype : Nat) : Nat :=
  ((ethertype >>> 8) &&& 0xFF) ||| ((ethertype &&& 0xFF) <<< 8)

/-- Embedding of `BuildEthernetFrame` (eth_tutorial.c, lines 979-1007).
Returns the `uint16_t` total length and the frame buffer after the
writes.  The header struct is packed: bytes 0-5 destination MAC, 6-11
source MAC, 12-13 the `ethertype` field stored little-endian (the
target Cortex-M7 byte order).  `total_len` is a `uint16_t`, hence the
`% 2 ^ 16`. -/
def BuildEthernetFrame (frame dest_mac src_mac : Nat → Nat) (ethertype : Nat)
    (payload : Nat → Nat) (payload_len : Nat) : Nat × (Nat → Nat) :=
  let f1 : Nat → Nat := fun i =>
    if i < 6 then dest_mac i
    else if i < 12 then src_mac (i - 6)
    else if i = 12 then hdrEthertypeStored ethertype % 256
    else if i = 13 then hdrEthertypeStored ethertype / 256 % 256
    else frame i
  let f2 : Nat → Nat := fun i =>
    if 14 ≤ i ∧ i < 14 + payload_len then payload (i - 14) else f1 i
  let total_len := (14 + payload_len) % 2 ^ 16
  if total_len < 60 then
    (60, fun i => if total_len ≤ i ∧ i < 60 then 0 else f2 i)
  else
    (total_len, f2)

/-- Iterated `ETH_SendFrame`: the list of results and the final state
after `n` calls with the same payload. -/
def sendResults (L : MemLayout) (data : Nat → Nat) (length : Nat) :
    Nat → EthState → List Nat × EthState
  | 0, s => ([], s)
  | n + 1, s =>
    let r := ETH_SendFrame L s data length
    let rest := sendResults L data length n r.2
    (r.1 :: rest.1, rest.2)

/-- Claim C1: if the TX descriptor at the current cursor is DMA-owned,
`ETH_SendFrame` returns 0 and the state — every descriptor, every slot
buffer, the cursor and the DMA TX tail pointer — is unchanged; the
busy path is a single non-blocking check with no writes, so repeated
over-capacity calls cannot corrupt any still-DMA-owned slot. -/
theorem eth_sendFrame_busy (L : MemLayout) (s : EthState) (data : Nat → Nat)
    (length : Nat)
    (h : (s.TxDescriptors s.TxDescIdx).DESC3 &&& ETH_TDES3_OWN ≠ 0) :
    ETH_SendFrame L s data length = (0, s) := by
  simp [ETH_SendFrame, h]

/-- Helper: the exact state produced by the successful `ETH_SendFrame`
path, as a single record equality. -/
theorem ETH_SendFrame_own_clear (L : MemLayout) (s : EthState) (data : Nat → Nat)
    (length : Nat)
    (h : (s.TxDescriptors s.TxDescIdx).DESC3 &&& ETH_TDES3_OWN = 0) :
    ETH_SendFrame L s data length =
      (1, { s with
        TxBuffer := Function.update s.TxBuffer s.TxDescIdx
          (fun i => if i < length then data i else s.TxBuffer s.TxDescIdx i)
        TxDescriptors := Function.update s.TxDescriptors s.TxDescIdx
          ⟨L.txBufAddr s.TxDescIdx.val, 0, length &&& ETH_TDES2_B1L_MASK,
           ETH_TDES3_OWN ||| ETH_TDES3_FD ||| ETH_TDES3_LD |||
             ETH_TDES3_CIC_ALL ||| length⟩
        TxDescIdx := s.TxDescIdx + 1
        DMACTDTPR := L.txDescAddr ((s.TxDescIdx + 1 : Fin 4)).val }) := by
  simp [ETH_SendFrame, h]

/-- Claim C2: on the software-owned path, `ETH_SendFrame` copies exactly
`length` bytes into the slot buffer (other bytes and other slots
untouched), writes the buffer address, the length field, the
first/last-segment flags, the checksum-insertion request and the OWN
bit into the descriptor, advances the cursor by one modulo 4, writes
the new cursor's descriptor address to the TX tail pointer, returns 1;
and four successful sends from cursor 0 (all slots software-owned)
bring the cursor back to 0. -/
theorem eth_sendFrame_success_spec :
    (∀ (L : MemLayout) (s : EthState) (data : Nat → Nat) (length : Nat),
      (s.TxDescriptors s.TxDescIdx).DESC3 &&& ETH_TDES3_OWN = 0 →
      (ETH_SendFrame L s data length).1 = 1 ∧
      (∀ i, i < length →
        (ETH_SendFrame L s data length).2.TxBuffer s.TxDescIdx i = data i) ∧
      (∀ i, length ≤ i →
        (ETH_SendFrame L s data length).2.TxBuffer s.TxDescIdx i =
          s.TxBuffer s.TxDescIdx i) ∧
      (∀ j, j ≠ s.TxDescIdx →
        (ETH_SendFrame L s data length).2.TxBuffer j = s.TxBuffer j) ∧
      (ETH_SendFrame L s data length).2.TxDescriptors s.TxDescIdx =
        ⟨L.txBufAddr s.TxDescIdx.val, 0, length &&& ETH_TDES2_B1L_MASK,
         ETH_TDES3_OWN ||| ETH_TDES3_FD ||| ETH_TDES3_LD |||
           ETH_TDES3_CIC_ALL ||| length⟩ ∧
      (∀ j, j ≠ s.TxDescIdx →
        (ETH_SendFrame L s data length).2.TxDescriptors j = s.TxDescriptors j) ∧
      (ETH_SendFrame L s data length).2.TxDescIdx = s.TxDescIdx + 1 ∧
      ((ETH_SendFrame L s data length).2.TxDescIdx).val = (s.TxDescIdx.val + 1) % 4 ∧
      (ETH_SendFrame L s data length).2.DMACTDTPR =
        L.txDescAddr ((s.TxDescIdx + 1 : Fin 4)).val) ∧
    (∀ (L : MemLayout) (s : EthState) (data : Nat → Nat) (length : Nat),
      s.TxDescIdx = 0 →
      (∀ j : Fin 4, (s.TxDescriptors j).DESC3 &&& ETH_TDES3_OWN = 0) →
      (sendResults L data length 4 s).1 = [1, 1, 1, 1] ∧
      (sendResults L data length 4 s).2.TxDescIdx = 0) := by
  have hne1 : ∀ x : Fin 4, x + 1 ≠ x := by decide
  have hwrap : ∀ x : Fin 4, x + 1 + 1 + 1 + 1 = x := by decide
  constructor
  · intro L s data length h
    rw [ETH_SendFrame_own_clear L s data length h]
    refine ⟨rfl, ?_, ?_, ?_, ?_, ?_, rfl, ?_, rfl⟩
    · intro i hi
      simp [Function.update_same, hi]
    · intro i hi
      simp [Function.update_same, Nat.not_lt.mpr hi]
    · intro j hj
      exact Function.update_noteq hj _ _
    · exact Function.update_same _ _ _
    · intro j hj
      exact Function.update_noteq hj _ _
    · simp [Fin.val_add]
  · intro L s data length h0 hall
    have hne1 : ∀ x : Fin 4, x + 1 ≠ x := by decide
    have hne2 : ∀ x : Fin 4, x + 1 + 1 ≠ x := by decide
    have hne3 : ∀ x : Fin 4, x + 1 + 1 + 1 ≠ x := by decide
    have hwrap : ∀ x : Fin 4, x + 1 + 1 + 1 + 1 = x := by decide
    have e1 := ETH_SendFrame_own_clear L s data length (hall _)
    have k2 : (((ETH_SendFrame L s data length).2).TxDescriptors
        ((ETH_SendFrame L s data length).2).TxDescIdx).DESC3 &&& ETH_TDES3_OWN = 0 := by
      rw [e1]
      simpa [Function.update_noteq (hne1 s.TxDescIdx)] using hall _
    have e2 := ETH_SendFrame_own_clear L (ETH_SendFrame L s data length).2 data length k2
    have hidx1 : ((ETH_SendFrame L s data length).2).TxDescIdx = s.TxDescIdx + 1 := by
      rw [e1]
    have hidx2 : ((ETH_SendFrame L (ETH_SendFrame L s data length).2 data length).2).TxDescIdx =
        s.TxDescIdx + 1 + 1 := by
      rw [e2, hidx1]
    have hpres1 : ∀ j, j ≠ s.TxDescIdx →
        ((ETH_SendFrame L s data length).2).TxDescriptors j = s.TxDescriptors j := by
      intro j hj
      rw [e1]
      exact Function.update_noteq hj _ _
    have hpres2 : ∀ j, j ≠ ((ETH_SendFrame L s data length).2).TxDescIdx →
        ((ETH_SendFrame L (ETH_SendFrame L s data length).2 data length).2).TxDescriptors j =
          ((ETH_SendFrame L s data length).2).TxDescriptors j := by
      intro j hj
      rw [e2]
      exact Function.update_noteq hj _ _
    have k3 : (((ETH_SendFrame L (ETH_SendFrame L s data length).2 data length).2).TxDescriptors
        ((ETH_SendFrame L (ETH_SendFrame L s data length).2 data length).2).TxDescIdx).DESC3 &&&
          ETH_TDES3_OWN = 0 := by
      rw [hidx2, hpres2 _ (by rw [hidx1]; exact hne1 _), hpres1 _ (hne2 _)]
      exact hall _
    have e3 := ETH_SendFrame_own_clear L
      (ETH_SendFrame L (ETH_SendFrame L s data length).2 data length).2 data length k3
    have hidx3 : ((ETH_SendFrame L
        (ETH_SendFrame L (ETH_SendFrame L s data length).2 data length).2 data length).2).TxDescIdx =
        s.TxDescIdx + 1 + 1 + 1 := by
      rw [e3, hidx2]
    have hpres3 : ∀ j,
        j ≠ ((ETH_SendFrame L (ETH_SendFrame L s data length).2 data length).2).TxDescIdx →
        ((ETH_SendFrame L
          (ETH_SendFrame L (ETH_SendFrame L s data length).2 data length).2 data length).2).TxDescriptors j =
          ((ETH_SendFrame L (ETH_SendFrame L s data length).2 data length).2).TxDescriptors j := by
      intro j hj
      rw [e3]
      exact Function.update_noteq hj _ _
    have k4 : (((ETH_SendFrame L
        (ETH_SendFrame L (ETH_SendFrame L s data length).2 data length).2 data length).2).TxDescriptors
        ((ETH_SendFrame L
          (ETH_SendFrame L (ETH_SendFrame L s data length).2 data length).2 data length).2).TxDescIdx).DESC3 &&&
          ETH_TDES3_OWN = 0 := by
      rw [hidx3, hpres3 _ (by rw [hidx2]; exact hne1 _),
        hpres2 _ (by rw [hidx1]; exact hne2 _), hpres1 _ (hne3 _)]
      exact hall _
    have e4 := ETH_SendFrame_own_clear L
      (ETH_SendFrame L
        (ETH_SendFrame L (ETH_SendFrame L s data length).2 data length).2 data length).2 data length k4
    constructor
    · show (ETH_SendFrame L s data length).1 ::
          (ETH_SendFrame L (ETH_SendFrame L s data length).2 data length).1 ::
          (ETH_SendFrame L
            (ETH_SendFrame L (ETH_SendFrame L s data length).2 data length).2 data length).1 ::
          (ETH_SendFrame L
            (ETH_SendFrame L
              (ETH_SendFrame L (ETH_SendFrame L s data length).2 data length).2 data length).2
            data length).1 :: [] = [1, 1, 1, 1]
      rw [e4, e3, e2, e1]
    · show (ETH_SendFrame L
          (ETH_SendFrame L
            (ETH_SendFrame L (ETH_SendFrame L s data length).2 data length).2 data length).2
          data length).2.TxDescIdx = 0
      rw [e4]
      show (ETH_SendFrame L
          (ETH_SendFrame L (ETH_SendFrame L s data length).2 data length).2 data length).2.TxDescIdx
          + 1 = 0
      rw [hidx3, hwrap, h0]

/-- Helper: the DMA-owned (no data yet) path of `ETH_ReceiveFrame` is a
pure no-op returning 0. -/
theorem ETH_ReceiveFrame_own_set (L : MemLayout) (s : EthState) (buffer : Nat → Nat)
    (max_length : Nat)
    (h : (s.RxDescriptors s.RxDescIdx).DESC3 &&& ETH_RDES3_OWN ≠ 0) :
    ETH_ReceiveFrame L s buffer max_length = (0, buffer, s) := by
  simp [ETH_ReceiveFrame, h]

/-- Helper: the error-summary path of `ETH_ReceiveFrame` as a record
equality — re-arm `DESC0`/`DESC3`, advance the cursor, return 0, and
leave `DMACRDTPR` (and the caller's buffer) alone. -/
theorem ETH_ReceiveFrame_err (L : MemLayout) (s : EthState) (buffer : Nat → Nat)
    (max_length : Nat)
    (h1 : (s.RxDescriptors s.RxDescIdx).DESC3 &&& ETH_RDES3_OWN = 0)
    (h2 : (s.RxDescriptors s.RxDescIdx).DESC3 &&& ETH_RDES3_ES ≠ 0) :
    ETH_ReceiveFrame L s buffer max_length =
      (0, buffer,
        { s with
          RxDescriptors := Function.update s.RxDescriptors s.RxDescIdx
            { s.RxDescriptors s.RxDescIdx with
              DESC0 := L.rxBufAddr s.RxDescIdx.val
              DESC3 := ETH_RDES3_OWN ||| ETH_RDES3_IOC ||| ETH_RDES3_BUF1V }
          RxDescIdx := s.RxDescIdx + 1 }) := by
  simp [ETH_ReceiveFrame, h1, h2]

/-- Helper: the successful path of `ETH_ReceiveFrame` as a record
equality, with the clamped length written as the `if` of the C source. -/
theorem ETH_ReceiveFrame_ok (L : MemLayout) (s : EthState) (buffer : Nat → Nat)
    (max_length : Nat)
    (h1 : (s.RxDescriptors s.RxDescIdx).DESC3 &&& ETH_RDES3_OWN = 0)
    (h2 : (s.RxDescriptors s.RxDescIdx).DESC3 &&& ETH_RDES3_ES = 0) :
    ETH_ReceiveFrame L s buffer max_length =
      (min ((s.RxDescriptors s.RxDescIdx).DESC3 &&& ETH_RDES3_PL_MASK) max_length,
        fun i => if i < min ((s.RxDescriptors s.RxDescIdx).DESC3 &&& ETH_RDES3_PL_MASK) max_length
          then s.RxBuffer s.RxDescIdx i else buffer i,
        { s with
          RxDescriptors := Function.update s.RxDescriptors s.RxDescIdx
            { s.RxDescriptors s.RxDescIdx with
              DESC0 := L.rxBufAddr s.RxDescIdx.val
              DESC3 := ETH_RDES3_OWN ||| ETH_RDES3_IOC ||| ETH_RDES3_BUF1V }
          RxDescIdx := s.RxDescIdx + 1
          DMACRDTPR := L.rxDescAddr ((s.RxDescIdx + 1 : Fin 4)).val }) := by
  have hm : (if (s.RxDescriptors s.RxDescIdx).DESC3 &&& ETH_RDES3_PL_MASK > max_length
      then max_length else (s.RxDescriptors s.RxDescIdx).DESC3 &&& ETH_RDES3_PL_MASK) =
      min ((s.RxDescriptors s.RxDescIdx).DESC3 &&& ETH_RDES3_PL_MASK) max_length := by
    split <;> omega
  simp only [ETH_ReceiveFrame, h1, h2]
  simp [hm]

/-- Claim C3: `ETH_ReceiveFrame` on a DMA-owned descriptor returns 0
with nothing changed; on a software-owned, error-free descriptor it
reads the packet-length field, clamps it to `max_length`, copies that
many bytes from the slot buffer to the caller's buffer, re-arms the
descriptor with `OWN | IOC | BUF1V` and the buffer address, advances
the cursor modulo 4, writes the new cursor's descriptor address to the
RX tail pointer, and returns the clamped count. -/
theorem eth_receiveFrame_spec :
    (∀ (L : MemLayout) (s : EthState) (buffer : Nat → Nat) (max_length : Nat),
      (s.RxDescriptors s.RxDescIdx).DESC3 &&& ETH_RDES3_OWN ≠ 0 →
      ETH_ReceiveFrame L s buffer max_length = (0, buffer, s)) ∧
    (∀ (L : MemLayout) (s : EthState) (buffer : Nat → Nat) (max_length : Nat),
      (s.RxDescriptors s.RxDescIdx).DESC3 &&& ETH_RDES3_OWN = 0 →
      (s.RxDescriptors s.RxDescIdx).DESC3 &&& ETH_RDES3_ES = 0 →
      (ETH_ReceiveFrame L s buffer max_length).1 =
        min ((s.RxDescriptors s.RxDescIdx).DESC3 &&& ETH_RDES3_PL_MASK) max_length ∧
      (∀ i, i < min ((s.RxDescriptors s.RxDescIdx).DESC3 &&& ETH_RDES3_PL_MASK) max_length →
        (ETH_ReceiveFrame L s buffer max_length).2.1 i = s.RxBuffer s.RxDescIdx i) ∧
      (∀ i, min ((s.RxDescriptors s.RxDescIdx).DESC3 &&& ETH_RDES3_PL_MASK) max_length ≤ i →
        (ETH_ReceiveFrame L s buffer max_length).2.1 i = buffer i) ∧
      (ETH_ReceiveFrame L s buffer max_length).2.2.RxDescriptors s.RxDescIdx =
        { s.RxDescriptors s.RxDescIdx with
          DESC0 := L.rxBufAddr s.RxDescIdx.val
          DESC3 := ETH_RDES3_OWN ||| ETH_RDES3_IOC ||| ETH_RDES3_BUF1V } ∧
      (∀ j, j ≠ s.RxDescIdx →
        (ETH_ReceiveFrame L s buffer max_length).2.2.RxDescriptors j = s.RxDescriptors j) ∧
      (ETH_ReceiveFrame L s buffer max_length).2.2.RxDescIdx = s.RxDescIdx + 1 ∧
      (ETH_ReceiveFrame L s buffer max_length).2.2.DMACRDTPR =
        L.rxDescAddr ((s.RxDescIdx + 1 : Fin 4)).val) := by
  constructor
  · exact fun L s buffer max_length h => ETH_ReceiveFrame_own_set L s buffer max_length h
  · intro L s buffer max_length h1 h2
    rw [ETH_ReceiveFrame_ok L s buffer max_length h1 h2]
    refine ⟨rfl, ?_, ?_, ?_, ?_, rfl, rfl⟩
    · intro i hi
      simp [hi]
    · intro i hi
      simp [Nat.not_lt.mpr hi]
    · exact Function.update_same _ _ _
    · intro j hj
      exact Function.update_noteq hj _ _

/-- Claim C4: on a software-owned descriptor whose error-summary bit is
set, `ETH_ReceiveFrame` returns 0, copies nothing to the caller's
buffer, re-arms the descriptor (OWN set back to DMA-owned together
with IOC and BUF1V), and advances the cursor modulo 4 — a silent drop. -/
theorem eth_receiveFrame_error_drop (L : MemLayout) (s : EthState) (buffer : Nat → Nat)
    (max_length : Nat)
    (h1 : (s.RxDescriptors s.RxDescIdx).DESC3 &&& ETH_RDES3_OWN = 0)
    (h2 : (s.RxDescriptors s.RxDescIdx).DESC3 &&& ETH_RDES3_ES ≠ 0) :
    (ETH_ReceiveFrame L s buffer max_length).1 = 0 ∧
    (ETH_ReceiveFrame L s buffer max_length).2.1 = buffer ∧
    (ETH_ReceiveFrame L s buffer max_length).2.2.RxDescriptors s.RxDescIdx =
      { s.RxDescriptors s.RxDescIdx with
        DESC0 := L.rxBufAddr s.RxDescIdx.val
        DESC3 := ETH_RDES3_OWN ||| ETH_RDES3_IOC ||| ETH_RDES3_BUF1V } ∧
    ((ETH_ReceiveFrame L s buffer max_length).2.2.RxDescriptors s.RxDescIdx).DESC3 &&&
      ETH_RDES3_OWN ≠ 0 ∧
    (ETH_ReceiveFrame L s buffer max_length).2.2.RxDescIdx = s.RxDescIdx + 1 := by
  rw [ETH_ReceiveFrame_err L s buffer max_length h1 h2]
  refine ⟨rfl, rfl, ?_, ?_, rfl⟩
  · exact Function.update_same _ _ _
  · simp only [Function.update_same]
    decide

/-- Claim C9: the error-frame branch of `ETH_ReceiveFrame` leaves the
RX tail-pointer register `DMACRDTPR` unchanged, while the
successful-receive branch writes the new cursor's descriptor address
into it. -/
theorem eth_receiveFrame_tail_pointer :
    (∀ (L : MemLayout) (s : EthState) (buffer : Nat → Nat) (max_length : Nat),
      (s.RxDescriptors s.RxDescIdx).DESC3 &&& ETH_RDES3_OWN = 0 →
      (s.RxDescriptors s.RxDescIdx).DESC3 &&& ETH_RDES3_ES ≠ 0 →
      (ETH_ReceiveFrame L s buffer max_length).2.2.DMACRDTPR = s.DMACRDTPR) ∧
    (∀ (L : MemLayout) (s : EthState) (buffer : Nat → Nat) (max_length : Nat),
      (s.RxDescriptors s.RxDescIdx).DESC3 &&& ETH_RDES3_OWN = 0 →
      (s.RxDescriptors s.RxDescIdx).DESC3 &&& ETH_RDES3_ES = 0 →
      (ETH_ReceiveFrame L s buffer max_length).2.2.DMACRDTPR =
        L.rxDescAddr ((s.RxDescIdx + 1 : Fin 4)).val) := by
  constructor
  · intro L s buffer max_length h1 h2
    rw [ETH_ReceiveFrame_err L s buffer max_length h1 h2]
  · intro L s buffer max_length h1 h2
    rw [ETH_ReceiveFrame_ok L s buffer max_length h1 h2]

/-- Claim C5: after `ETH_InitDescriptors`, every TX descriptor is
all-zero (software-owned), every RX descriptor carries its slot buffer
address in word 0 and `OWN | IOC | BUF1V` in word 3, both ring-length
registers hold 3 (count minus one), the TX tail pointer is the first
TX descriptor's address, the RX tail pointer the last RX descriptor's
address, and both cursors are 0. -/
theorem eth_initDescriptors_spec (L : MemLayout) (s : EthState) :
    (∀ i : Fin 4, (ETH_InitDescriptors L s).TxDescriptors i = ⟨0, 0, 0, 0⟩) ∧
    (∀ i : Fin 4, (ETH_InitDescriptors L s).RxDescriptors i =
      ⟨L.rxBufAddr i.val, 0, 0, ETH_RDES3_OWN ||| ETH_RDES3_IOC ||| ETH_RDES3_BUF1V⟩) ∧
    (ETH_InitDescriptors L s).DMACTDRLR = 3 ∧
    (ETH_InitDescriptors L s).DMACRDRLR = 3 ∧
    (ETH_InitDescriptors L s).DMACTDTPR = L.txDescAddr 0 ∧
    (ETH_InitDescriptors L s).DMACRDTPR = L.rxDescAddr 3 ∧
    (ETH_InitDescriptors L s).TxDescIdx = 0 ∧
    (ETH_InitDescriptors L s).RxDescIdx = 0 :=
  ⟨fun _ => rfl, fun _ => rfl, rfl, rfl, rfl, rfl, rfl, rfl⟩

/-- Claim C6 (amended): `ETH_InitPHY` returns 0 exactly when the
bounded reset poll exhausts its 100000-iteration timeout, or the first
identification register (masked to 16 bits) differs from `0x0007`, or
the bounded link-up poll exhausts its 1000000-iteration timeout — and
returns 1 otherwise.  The second identification register is read but
never compared. -/
theorem eth_initPHY_result_iff (env : PhyEnv) :
    (ETH_InitPHY env = 0 ↔
      (phyPollClear env.bcr PHY_BCR_RESET 0 100000 = false ∨
       env.id1 &&& 0xFFFF ≠ 0x0007 ∨
       phyPollSet env.bsr PHY_BSR_LINK_UP 0 1000000 = false)) ∧
    (ETH_InitPHY env = 1 ↔
      (phyPollClear env.bcr PHY_BCR_RESET 0 100000 = true ∧
       env.id1 &&& 0xFFFF = 0x0007 ∧
       phyPollSet env.bsr PHY_BSR_LINK_UP 0 1000000 = true)) := by
  cases hA : phyPollClear env.bcr PHY_BCR_RESET 0 100000 <;>
    cases hB : phyPollSet env.bsr PHY_BSR_LINK_UP 0 1000000 <;>
    by_cases hC : env.id1 &&& 0xFFFF = 0x0007 <;>
    simp [ETH_InitPHY, hA, hB, hC]

/-- Oracle under which the PHY answers the reset poll immediately,
reports `id1 = 0x0007` but an `id2` different from the LAN8742A value
`0xC130`, and reports link-up immediately. -/
def phyEnvWrongId2 : PhyEnv :=
  ⟨fun _ => 0, 0x0007, 0, fun _ => 0xFFFF⟩

/-- Counterexample to claim C6 as stated: the LAN8742A identification
is `0x0007` / `0xC130`, and with `id2` reading 0 (≠ 0xC130) —
a mismatch of the identification pair — `ETH_InitPHY` still returns
success 1, because the code never compares `id2`. -/
theorem eth_initPHY_id2_ignored :
    ETH_InitPHY phyEnvWrongId2 = 1 ∧ phyEnvWrongId2.id2 &&& 0xFFFF ≠ 0xC130 := by
  exact ⟨rfl, by decide⟩

/-- Helper: for a 16-bit `ethertype`, the byte-swapped stored field
value is `256 * low byte + high byte`. -/
theorem hdrEthertypeStored_eq (e : Nat) (he : e < 2 ^ 16) :
    hdrEthertypeStored e = 256 * (e % 256) + e / 256 := by
  have h2 : e / 2 ^ 8 < 2 ^ 8 := by omega
  calc hdrEthertypeStored e
      = (e / 2 ^ 8) % 2 ^ 8 ||| (e % 2 ^ 8) <<< 8 := by
        unfold hdrEthertypeStored
        rw [Nat.shiftRight_eq_div_pow]
        rw [show (0xFF : Nat) = 2 ^ 8 - 1 from rfl]
        rw [Nat.and_pow_two_sub_one_eq_mod, Nat.and_pow_two_sub_one_eq_mod]
    _ = e / 2 ^ 8 ||| (e % 2 ^ 8) * 2 ^ 8 := by
        rw [Nat.mod_eq_of_lt h2, Nat.shiftLeft_eq]
    _ = (e % 2 ^ 8) * 2 ^ 8 ||| e / 2 ^ 8 := Nat.lor_comm _ _
    _ = 2 ^ 8 * (e % 2 ^ 8) ||| e / 2 ^ 8 := by rw [Nat.mul_comm (e % 2 ^ 8) (2 ^ 8)]
    _ = 2 ^ 8 * (e % 2 ^ 8) + e / 2 ^ 8 := (Nat.mul_add_lt_is_or h2 _).symm
    _ = 256 * (e % 256) + e / 256 := by norm_num

/-- Helper: the frame buffer produced by `BuildEthernetFrame`, written
as one flat conditional on the byte index. -/
theorem BuildEthernetFrame_snd_eq (frame dest_mac src_mac payload : Nat → Nat)
    (ethertype payload_len : Nat) :
    (BuildEthernetFrame frame dest_mac src_mac ethertype payload payload_len).2 = fun i =>
      if (14 + payload_len) % 2 ^ 16 < 60 ∧ (14 + payload_len) % 2 ^ 16 ≤ i ∧ i < 60 then 0
      else if 14 ≤ i ∧ i < 14 + payload_len then payload (i - 14)
      else if i < 6 then dest_mac i
      else if i < 12 then src_mac (i - 6)
      else if i = 12 then hdrEthertypeStored ethertype % 256
      else if i = 13 then hdrEthertypeStored ethertype / 256 % 256
      else frame i := by
  simp only [BuildEthernetFrame]
  split
  · next h =>
    funext i
    dsimp only
    by_cases hp : (14 + payload_len) % 2 ^ 16 ≤ i ∧ i < 60
    · rw [if_pos hp, if_pos ⟨h, hp⟩]
    · have hp' : ¬((14 + payload_len) % 2 ^ 16 < 60 ∧
          (14 + payload_len) % 2 ^ 16 ≤ i ∧ i < 60) := fun hc => hp hc.2
      rw [if_neg hp, if_neg hp']
  · next h =>
    funext i
    dsimp only
    have hp' : ¬((14 + payload_len) % 2 ^ 16 < 60 ∧
        (14 + payload_len) % 2 ^ 16 ≤ i ∧ i < 60) := fun hc => h hc.1
    rw [if_neg hp']

/-- Claim C7 (amended): with `payload_len < 46` the function returns
exactly 60 and the 60-byte frame is the 14-byte header (destination
MAC, source MAC, stored type field), the payload, and an all-zero pad;
with `46 ≤ payload_len ≤ 65521` it returns `14 + payload_len` with no
padding.  (Beyond 65521 the `uint16_t` total length wraps below 60 and
the function pads and returns 60 instead.) -/
theorem buildEthernetFrame_spec (frame dest_mac src_mac payload : Nat → Nat)
    (ethertype payload_len : Nat) :
    (payload_len < 46 →
      (BuildEthernetFrame frame dest_mac src_mac ethertype payload payload_len).1 = 60 ∧
      (∀ i, i < 6 →
        (BuildEthernetFrame frame dest_mac src_mac ethertype payload payload_len).2 i =
          dest_mac i) ∧
      (∀ i, 6 ≤ i → i < 12 →
        (BuildEthernetFrame frame dest_mac src_mac ethertype payload payload_len).2 i =
          src_mac (i - 6)) ∧
      (BuildEthernetFrame frame dest_mac src_mac ethertype payload payload_len).2 12 =
        hdrEthertypeStored ethertype % 256 ∧
      (BuildEthernetFrame frame dest_mac src_mac ethertype payload payload_len).2 13 =
        hdrEthertypeStored ethertype / 256 % 256 ∧
      (∀ i, 14 ≤ i → i < 14 + payload_len →
        (BuildEthernetFrame frame dest_mac src_mac ethertype payload payload_len).2 i =
          payload (i - 14)) ∧
      (∀ i, 14 + payload_len ≤ i → i < 60 →
        (BuildEthernetFrame frame dest_mac src_mac ethertype payload payload_len).2 i = 0)) ∧
    (46 ≤ payload_len → payload_len ≤ 65521 →
      (BuildEthernetFrame frame dest_mac src_mac ethertype payload payload_len).1 =
        14 + payload_len) := by
  constructor
  · intro h
    refine ⟨?_, ?_, ?_, ?_, ?_, ?_, ?_⟩
    · simp only [BuildEthernetFrame]
      rw [if_pos (by omega)]
    · intro i hi
      rw [BuildEthernetFrame_snd_eq]
      dsimp only
      rw [if_neg (by omega), if_neg (by omega), if_pos hi]
    · intro i hi1 hi2
      rw [BuildEthernetFrame_snd_eq]
      dsimp only
      rw [if_neg (by omega), if_neg (by omega), if_neg (by omega), if_pos hi2]
    · rw [BuildEthernetFrame_snd_eq]
      dsimp only
      rw [if_neg (by omega), if_neg (by omega), if_neg (by norm_num),
        if_neg (by norm_num), if_pos rfl]
    · rw [BuildEthernetFrame_snd_eq]
      dsimp only
      rw [if_neg (by omega), if_neg (by omega), if_neg (by norm_num),
        if_neg (by norm_num), if_neg (by norm_num), if_pos rfl]
    · intro i hi1 hi2
      rw [BuildEthernetFrame_snd_eq]
      dsimp only
      rw [if_neg (by omega), if_pos ⟨hi1, hi2⟩]
    · intro i hi1 hi2
      rw [BuildEthernetFrame_snd_eq]
      dsimp only
      rw [if_pos (by omega)]
  · intro h1 h2
    simp only [BuildEthernetFrame]
    rw [if_neg (by omega)]
    omega

/-- Concrete byte source for the counterexample and witness frames. -/
def cBytes : Nat → Nat := fun i => i % 256

/-- Concrete pre-existing frame buffer content. -/
def cFrame : Nat → Nat := fun _ => 0

/-- Counterexample to claim C7 as stated: at `payload_len = 65522` (a
representable `uint16_t` value of at least 46) the `uint16_t` total
length `14 + 65522` wraps to 0, the function pads and returns 60 — not
`14 + payload_len`. -/
theorem buildEthernetFrame_wrap_cex :
    (46 : Nat) ≤ 65522 ∧
    (BuildEthernetFrame cFrame cBytes cBytes 0x0800 cBytes 65522).1 ≠ 14 + 65522 := by
  exact ⟨by decide, by decide⟩

/-- Claim C10 (amended): for a 16-bit `ethertype` and any payload
length that does not make the `uint16_t` total length wrap
(`payload_len ≤ 65521`), byte 12 of the produced frame is the most
significant `ethertype` byte and byte 13 the least significant one —
network byte order on the little-endian target. -/
theorem buildEthernetFrame_type_bytes (frame dest_mac src_mac payload : Nat → Nat)
    (ethertype payload_len : Nat) (h1 : ethertype < 2 ^ 16) (h2 : payload_len ≤ 65521) :
    (BuildEthernetFrame frame dest_mac src_mac ethertype payload payload_len).2 12 =
      ethertype / 256 ∧
    (BuildEthernetFrame frame dest_mac src_mac ethertype payload payload_len).2 13 =
      ethertype % 256 := by
  have hv := hdrEthertypeStored_eq ethertype h1
  constructor
  · rw [BuildEthernetFrame_snd_eq]
    dsimp only
    rw [if_neg (by omega), if_neg (by omega), if_neg (by norm_num),
      if_neg (by norm_num), if_pos rfl, hv]
    omega
  · rw [BuildEthernetFrame_snd_eq]
    dsimp only
    rw [if_neg (by omega), if_neg (by omega), if_neg (by norm_num),
      if_neg (by norm_num), if_neg (by norm_num), if_pos rfl, hv]
    have hd : (256 * (ethertype % 256) + ethertype / 256) / 256 = ethertype % 256 := by
      omega
    rw [hd]
    omega

/-- Counterexample to claim C10 as stated over all payload lengths: at
`payload_len = 65534` the wrapped `uint16_t` total length is 12, so the
zero pad `memset` clobbers bytes 12..59 and byte 12 reads 0 instead of
the most significant byte of `0x0800`. -/
theorem buildEthernetFrame_type_bytes_cex :
    (BuildEthernetFrame cFrame cBytes cBytes 0x0800 cBytes 65534).2 12 = 0 ∧
    (0x0800 : Nat) / 256 ≠ 0 := by
  exact ⟨by decide, by decide⟩

/-- Helper: the busy path of `ETH_SendFrame` as a pure no-op equality
(shared by several developments below). -/
theorem ETH_SendFrame_busy_eq (L : MemLayout) (s : EthState) (data : Nat → Nat)
    (length : Nat)
    (h : (s.TxDescriptors s.TxDescIdx).DESC3 &&& ETH_TDES3_OWN ≠ 0) :
    ETH_SendFrame L s data length = (0, s) := by
  simp [ETH_SendFrame, h]

/-- Claim C8: under the precondition `length ≤ 1536` every byte the
copy of `ETH_SendFrame` writes lies inside the current slot's
1536-byte buffer — any index whose content changes is below
`ETH_TX_BUF_SIZE` — and the engine truncates nothing: on the
software-owned path all `length` bytes arrive verbatim. -/
theorem eth_sendFrame_copy_inbounds (L : MemLayout) (s : EthState) (data : Nat → Nat)
    (length : Nat) (h : length ≤ ETH_TX_BUF_SIZE) :
    (∀ (slot : Fin 4) (i : Nat),
      (ETH_SendFrame L s data length).2.TxBuffer slot i ≠ s.TxBuffer slot i →
      i < ETH_TX_BUF_SIZE) ∧
    ((s.TxDescriptors s.TxDescIdx).DESC3 &&& ETH_TDES3_OWN = 0 →
      ∀ i, i < length →
        (ETH_SendFrame L s data length).2.TxBuffer s.TxDescIdx i = data i) := by
  rcases eq_or_ne ((s.TxDescriptors s.TxDescIdx).DESC3 &&& ETH_TDES3_OWN) 0 with hB | hB
  · rw [ETH_SendFrame_own_clear L s data length hB]
    constructor
    · intro slot i hne
      dsimp only at hne
      by_cases hs : slot = s.TxDescIdx
      · subst hs
        rw [Function.update_same] at hne
        by_contra hge
        exact hne (if_neg (by omega))
      · rw [Function.update_noteq hs] at hne
        exact absurd rfl hne
    · intro _ i hi
      dsimp only
      rw [Function.update_same, if_pos hi]
  · rw [ETH_SendFrame_busy_eq L s data length hB]
    exact ⟨fun slot i hne => absurd rfl hne, fun hOwn => absurd hOwn hB⟩

/-- Concrete memory layout for the witness instances (arbitrary SRAM3
addresses; none of the theorems depend on the choice). -/
def testLayout : MemLayout := ⟨0x30040000, 0x30040100, 0x30040200, 0x30041A00⟩

/-- All-zero descriptor: software-owned, no flags. -/
def descFree : ETH_DMADescTypeDef := ⟨0, 0, 0, 0⟩

/-- Descriptor whose OWN bit is set (DMA-owned). -/
def descOwned : ETH_DMADescTypeDef := ⟨0, 0, 0, ETH_TDES3_OWN⟩

/-- Software-owned error-free RX descriptor announcing a 100-byte frame. -/
def descRxFull : ETH_DMADescTypeDef := ⟨0, 0, 0, 100⟩

/-- Software-owned RX descriptor with the error-summary bit set. -/
def descRxErr : ETH_DMADescTypeDef := ⟨0, 0, 0, ETH_RDES3_ES⟩

/-- A fully zeroed driver state with both cursors at 0. -/
def baseState : EthState :=
  ⟨fun _ => descFree, fun _ => descFree, fun _ _ => 0, fun _ _ => 0,
   0, 0, 0, 0, 0, 0, 0, 0, 0⟩

/-- State in which every TX descriptor is DMA-owned. -/
def busyState : EthState := { baseState with TxDescriptors := fun _ => descOwned }

/-- State in which every RX descriptor holds a received 100-byte frame. -/
def rxFullState : EthState :=
  { baseState with
    RxDescriptors := fun _ => descRxFull
    RxBuffer := fun _ i => (i + 7) % 256 }

/-- State in which every RX descriptor reports an errored frame. -/
def rxErrState : EthState := { baseState with RxDescriptors := fun _ => descRxErr }

/-- State in which every RX descriptor is still DMA-owned (nothing
received yet). -/
def rxEmptyState : EthState :=
  { baseState with RxDescriptors := fun _ => ⟨0, 0, 0, ETH_RDES3_OWN⟩ }

/-- Concrete payload bytes for the TX witnesses. -/
def testData : Nat → Nat := fun i => (i + 1) % 256

/-- Concrete caller-side receive buffer content. -/
def testBuf : Nat → Nat := fun _ => 0xEE

/-- Witness for C1 at a concrete DMA-owned ring state. -/
theorem eth_sendFrame_busy_witness :
    (busyState.TxDescriptors busyState.TxDescIdx).DESC3 &&& ETH_TDES3_OWN ≠ 0 ∧
    ETH_SendFrame testLayout busyState testData 64 = (0, busyState) :=
  ⟨by decide, eth_sendFrame_busy testLayout busyState testData 64 (by decide)⟩

/-- Witness for C2: a concrete free slot accepts a 64-byte frame, and
four sends from the all-free state return [1,1,1,1] and wrap the
cursor back to 0. -/
theorem eth_sendFrame_success_witness :
    (baseState.TxDescriptors baseState.TxDescIdx).DESC3 &&& ETH_TDES3_OWN = 0 ∧
    (ETH_SendFrame testLayout baseState testData 64).1 = 1 ∧
    baseState.TxDescIdx = 0 ∧
    (sendResults testLayout testData 64 4 baseState).1 = [1, 1, 1, 1] ∧
    (sendResults testLayout testData 64 4 baseState).2.TxDescIdx = 0 :=
  ⟨by decide,
   (eth_sendFrame_success_spec.1 testLayout baseState testData 64 (by decide)).1,
   by decide,
   (eth_sendFrame_success_spec.2 testLayout baseState testData 64 (by decide) (by decide)).1,
   (eth_sendFrame_success_spec.2 testLayout baseState testData 64 (by decide) (by decide)).2⟩

/-- Witness for C3: a still-DMA-owned concrete state yields 0 with
nothing changed; a concrete 100-byte frame clamped by
`max_length = 64` yields 64 and advances the cursor to 1. -/
theorem eth_receiveFrame_spec_witness :
    (rxEmptyState.RxDescriptors rxEmptyState.RxDescIdx).DESC3 &&& ETH_RDES3_OWN ≠ 0 ∧
    ETH_ReceiveFrame testLayout rxEmptyState testBuf 64 = (0, testBuf, rxEmptyState) ∧
    (rxFullState.RxDescriptors rxFullState.RxDescIdx).DESC3 &&& ETH_RDES3_OWN = 0 ∧
    (rxFullState.RxDescriptors rxFullState.RxDescIdx).DESC3 &&& ETH_RDES3_ES = 0 ∧
    (ETH_ReceiveFrame testLayout rxFullState testBuf 64).1 = 64 ∧
    (ETH_ReceiveFrame testLayout rxFullState testBuf 64).2.2.RxDescIdx = 1 :=
  ⟨by decide,
   eth_receiveFrame_spec.1 testLayout rxEmptyState testBuf 64 (by decide),
   by decide,
   by decide,
   ((eth_receiveFrame_spec.2 testLayout rxFullState testBuf 64 (by decide) (by decide)).1).trans
     (by decide),
   ((eth_receiveFrame_spec.2 testLayout rxFullState testBuf 64 (by decide)
       (by decide)).2.2.2.2.2.1).trans (by decide)⟩

/-- Witness for C4: a concrete errored frame is silently dropped — the
call returns 0, the descriptor ends DMA-owned again, the cursor moves
to 1. -/
theorem eth_receiveFrame_error_drop_witness :
    (rxErrState.RxDescriptors rxErrState.RxDescIdx).DESC3 &&& ETH_RDES3_OWN = 0 ∧
    (rxErrState.RxDescriptors rxErrState.RxDescIdx).DESC3 &&& ETH_RDES3_ES ≠ 0 ∧
    (ETH_ReceiveFrame testLayout rxErrState testBuf 64).1 = 0 ∧
    ((ETH_ReceiveFrame testLayout rxErrState testBuf 64).2.2.RxDescriptors
      rxErrState.RxDescIdx).DESC3 &&& ETH_RDES3_OWN ≠ 0 ∧
    (ETH_ReceiveFrame testLayout rxErrState testBuf 64).2.2.RxDescIdx = 1 :=
  ⟨by decide,
   by decide,
   (eth_receiveFrame_error_drop testLayout rxErrState testBuf 64 (by decide) (by decide)).1,
   (eth_receiveFrame_error_drop testLayout rxErrState testBuf 64 (by decide)
     (by decide)).2.2.2.1,
   ((eth_receiveFrame_error_drop testLayout rxErrState testBuf 64 (by decide)
     (by decide)).2.2.2.2).trans (by decide)⟩

/-- Witness for C9: at concrete states, the error drop leaves
`DMACRDTPR` at its old value while a successful receive writes the
next descriptor's address. -/
theorem eth_receiveFrame_tail_pointer_witness :
    (rxErrState.RxDescriptors rxErrState.RxDescIdx).DESC3 &&& ETH_RDES3_OWN = 0 ∧
    (rxErrState.RxDescriptors rxErrState.RxDescIdx).DESC3 &&& ETH_RDES3_ES ≠ 0 ∧
    (ETH_ReceiveFrame testLayout rxErrState testBuf 64).2.2.DMACRDTPR =
      rxErrState.DMACRDTPR ∧
    (rxFullState.RxDescriptors rxFullState.RxDescIdx).DESC3 &&& ETH_RDES3_ES = 0 ∧
    (ETH_ReceiveFrame testLayout rxFullState testBuf 64).2.2.DMACRDTPR =
      testLayout.rxDescAddr ((rxFullState.RxDescIdx + 1 : Fin 4)).val :=
  ⟨by decide,
   by decide,
   eth_receiveFrame_tail_pointer.1 testLayout rxErrState testBuf 64 (by decide) (by decide),
   by decide,
   eth_receiveFrame_tail_pointer.2 testLayout rxFullState testBuf 64 (by decide) (by decide)⟩

/-- Witness for C7: a 10-byte payload yields a 60-byte padded frame
and a 100-byte payload yields 114 bytes unpadded. -/
theorem buildEthernetFrame_spec_witness :
    (10 : Nat) < 46 ∧
    (BuildEthernetFrame cFrame cBytes cBytes 0x0800 cBytes 10).1 = 60 ∧
    (46 : Nat) ≤ 100 ∧ (100 : Nat) ≤ 65521 ∧
    (BuildEthernetFrame cFrame cBytes cBytes 0x0800 cBytes 100).1 = 14 + 100 :=
  ⟨by decide,
   ((buildEthernetFrame_spec cFrame cBytes cBytes cBytes 0x0800 10).1 (by decide)).1,
   by decide,
   by decide,
   (buildEthernetFrame_spec cFrame cBytes cBytes cBytes 0x0800 100).2 (by decide) (by decide)⟩

/-- Witness for C8: a concrete 64-byte send writes byte 5 of the slot
buffer verbatim and the precondition 64 ≤ 1536 holds. -/
theorem eth_sendFrame_copy_inbounds_witness :
    (64 : Nat) ≤ ETH_TX_BUF_SIZE ∧
    (baseState.TxDescriptors baseState.TxDescIdx).DESC3 &&& ETH_TDES3_OWN = 0 ∧
    (ETH_SendFrame testLayout baseState testData 64).2.TxBuffer baseState.TxDescIdx 5 =
      testData 5 :=
  ⟨by decide,
   by decide,
   (eth_sendFrame_copy_inbounds testLayout baseState testData 64 (by decide)).2
     (by decide) 5 (by decide)⟩

/-- Witness for C10: `ethertype = 0x0800` with a 10-byte payload gives
frame bytes 12 = 8 and 13 = 0. -/
theorem buildEthernetFrame_type_bytes_witness :
    (0x0800 : Nat) < 2 ^ 16 ∧ (10 : Nat) ≤ 65521 ∧
    (BuildEthernetFrame cFrame cBytes cBytes 0x0800 cBytes 10).2 12 = 0x0800 / 256 ∧
    (BuildEthernetFrame cFrame cBytes cBytes 0x0800 cBytes 10).2 13 = 0x0800 % 256 :=
  ⟨by decide,
   by decide,
   (buildEthernetFrame_type_bytes cFrame cBytes cBytes cBytes 0x0800 10 (by decide)
     (by decide)).1,
   (buildEthernetFrame_type_bytes cFrame cBytes cBytes cBytes 0x0800 10 (by decide)
     (by decide)).2⟩
